import Mathlib

/-!
# PirateRadio: the CFMTransmitter shim

A shallow embedding of `Sources/CFMTransmitter/shim.cpp` and of the error codes of
`Sources/CFMTransmitter/include/CFMTransmitter.h`.

The file has two implementations selected by `#ifdef __linux__`; they live here in the
namespaces `PirateRadio.Linux` and `PirateRadio.Stub`.

Modelling conventions.

* A `FMTransmitterRef` is a possibly-null pointer: `Option FMTransmitterHandle`, `none` being
  `nullptr`; `const char*` and `const FMTransmitterConfig*` arguments are options as well.
* The engine (`Transmitter`) and the reader (`WaveReader`) are external.  What they do in one
  pass through the body of the worker is an input of the model, a `CycleResult`.
* The worker thread is a small state machine stored in the `workerThread` slot.  The slot is
  `none` when the `std::thread` is not joinable and `some w` when it is joinable; a thread that
  has run to its end but was not joined still is joinable (`w.finished = true`).
* `std::thread::operator=(std::thread&&)` on a joinable thread calls `std::terminate()`; a
  start call therefore has the outcome `StartOutcome.terminates` besides returning.
* `float` fields are carried as their IEEE-754 single precision bit pattern; no arithmetic is
  done on them in the shim.
* The `transmitter` pointer is set once by `fm_transmitter_create` and never changes; it is
  not a field of the model, and `transmitter->Stop()` changes no field of the handle.
-/

namespace PirateRadio

/-- Error codes of `CFMTransmitter.h` (lines 20-29). -/
inductive FMTransmitterError where
  | FM_SUCCESS
  | FM_ERROR_INIT_FAILED
  | FM_ERROR_FILE_NOT_FOUND
  | FM_ERROR_INVALID_FORMAT
  | FM_ERROR_TRANSMISSION_FAILED
  | FM_ERROR_PERMISSION_DENIED
  | FM_ERROR_ALREADY_RUNNING
  | FM_ERROR_NOT_RUNNING
  deriving DecidableEq, Repr

/-- The integer value of each enumerator. -/
def FMTransmitterError.code : FMTransmitterError → Int
  | .FM_SUCCESS => 0
  | .FM_ERROR_INIT_FAILED => -1
  | .FM_ERROR_FILE_NOT_FOUND => -2
  | .FM_ERROR_INVALID_FORMAT => -3
  | .FM_ERROR_TRANSMISSION_FAILED => -4
  | .FM_ERROR_PERMISSION_DENIED => -5
  | .FM_ERROR_ALREADY_RUNNING => -6
  | .FM_ERROR_NOT_RUNNING => -7

/-- The struct `FMTransmitterConfig` (header lines 32-37).  `frequency` and `bandwidth` hold
the bit pattern of the `float`, `dmaChannel` the `uint16_t`. -/
structure FMTransmitterConfig where
  frequency : Nat
  bandwidth : Nat
  dmaChannel : Nat
  loop : Bool
  deriving DecidableEq, Repr

/-- The function `fm_transmitter_default_config` (shim.cpp lines 57-64 and 194-201):
100.0f is 0x42C80000 and 200.0f is 0x43480000. -/
def fm_transmitter_default_config : FMTransmitterConfig :=
  { frequency := 0x42C80000, bandwidth := 0x43480000, dmaChannel := 0, loop := false }

/-- What the external reader and engine do in one pass through the worker body
(`WaveReader reader(...)` followed by `transmitter->Transmit(reader, ...)`). -/
inductive CycleResult where
  /-- the `WaveReader` constructor throws a `std::exception` with this `what()` -/
  | readerThrows (what : String)
  /-- the reader was constructed and `Transmit` throws a `std::exception` -/
  | transmitThrows (what : String)
  /-- the reader was constructed and `Transmit` returned normally -/
  | returned
  deriving DecidableEq, Repr

/-- The message carried by a failing pass, `none` for a pass that returned. -/
def CycleResult.failure : CycleResult → Option String
  | .readerThrows what => some what
  | .transmitThrows what => some what
  | .returned => none

namespace Linux

/-- What the lambda of a worker captured: the one of `fm_transmitter_start_file` (line 109)
captures `path` and `loop`, the one of `fm_transmitter_start_stdin` (line 147) neither. -/
inductive WorkerSource where
  | file (path : String) (loop : Bool)
  | stdin
  deriving DecidableEq, Repr

/-- A thread of execution owned by `workerThread`.  `finished` tells that the lambda has
returned.  `readers` and `transmits` are instrumentation: how many times this worker has
invoked the `WaveReader` constructor and `Transmit`. -/
structure Worker where
  source : WorkerSource
  frequency : Nat
  bandwidth : Nat
  dmaChannel : Nat
  finished : Bool
  readers : Nat
  transmits : Nat
  deriving DecidableEq, Repr

/-- The struct `FMTransmitterHandle` of the Linux branch (lines 19-53). -/
structure FMTransmitterHandle where
  enable : Bool
  running : Bool
  workerThread : Option Worker
  lastError : String
  deriving DecidableEq, Repr

/-- The result of a start call: it returns a code, leaving the handle in a state, or the process is
ended by `std::terminate()`. -/
inductive StartOutcome where
  | returns (code : FMTransmitterError) (after : Option FMTransmitterHandle)
  | terminates
  deriving DecidableEq, Repr

/-- The constructor `FMTransmitterHandle()` (lines 27-31). -/
def FMTransmitterHandle.new : FMTransmitterHandle :=
  { enable := true, running := false, workerThread := none, lastError := "" }

/-- The function `fm_transmitter_create` (lines 66-74); `engineThrows` tells whether
`new Transmitter()` throws. -/
def fm_transmitter_create (engineThrows : Bool) : Option FMTransmitterHandle :=
  if engineThrows then none else some FMTransmitterHandle.new

/-- The loop condition of the worker.  The file worker evaluates `handle->enable && loop`
(line 114); the stdin worker has no loop (lines 148-154). -/
def loopCondition : WorkerSource → Bool → Bool
  | .file _ loop, enable => enable && loop
  | .stdin, _ => false

/-- One pass of the worker through its body, up to the exit of the lambda when the pass is
the last one (lines 110-118 and 148-155).  A throw is caught, stored in `lastError`, and the
lambda ends with `running = false`; a normal return repeats when the loop condition holds and
otherwise ends with `running = false`.  A finished worker and an empty slot do nothing. -/
def workerCycle (r : CycleResult) (h : FMTransmitterHandle) : FMTransmitterHandle :=
  match h.workerThread with
  | none => h
  | some w =>
    if w.finished then h
    else
      match r with
      | .readerThrows what =>
        { h with
          lastError := what
          running := false
          workerThread := some { w with finished := true, readers := w.readers + 1 } }
      | .transmitThrows what =>
        { h with
          lastError := what
          running := false
          workerThread := some { w with
            finished := true, readers := w.readers + 1, transmits := w.transmits + 1 } }
      | .returned =>
        if loopCondition w.source h.enable then
          { h with
            workerThread := some { w with
              readers := w.readers + 1, transmits := w.transmits + 1 } }
        else
          { h with
            running := false
            workerThread := some { w with
              finished := true, readers := w.readers + 1, transmits := w.transmits + 1 } }

/-- The worker running on its own through the given passes, in order. -/
def runCycles : List CycleResult → FMTransmitterHandle → FMTransmitterHandle
  | [], h => h
  | r :: rs, h => runCycles rs (workerCycle r h)

/-- The call `workerThread.join()`: the caller waits until the worker has finished, then the
slot is no longer joinable.  `env` lists what the passes still to come do; `none` means the
worker did not finish within `fuel` passes (the caller is still blocked).  `stop` calls it
behind the `joinable()` test only; on an empty slot it is the identity here. -/
def join : Nat → (Nat → CycleResult) → FMTransmitterHandle → Option FMTransmitterHandle
  | fuel, env, h =>
    match h.workerThread with
    | none => some h
    | some w =>
      if w.finished then some { h with workerThread := none }
      else
        match fuel with
        | 0 => none
        | fuel + 1 => join fuel (fun n => env (n + 1)) (workerCycle (env 0) h)

/-- The method `FMTransmitterHandle::stop` (lines 40-52). -/
def FMTransmitterHandle.stop (fuel : Nat) (env : Nat → CycleResult)
    (h : FMTransmitterHandle) : Option FMTransmitterHandle :=
  let h1 := { h with enable := false }
  match h1.workerThread with
  | none => some { h1 with running := false }
  | some _ =>
    match join fuel env h1 with
    | none => none
    | some h2 => some { h2 with running := false }

/-- The assignment `handle->workerThread = std::thread(...)`: `std::terminate()` when the slot
is joinable, otherwise the new thread is installed. -/
def assignWorker (h : FMTransmitterHandle) (w : Worker) : Option FMTransmitterHandle :=
  match h.workerThread with
  | some _ => none
  | none => some { h with workerThread := some w }

/-- The effect of lines 95-100 and 136-141: `enable = true`, `running = true`,
`lastError.clear()`. -/
def armHandle (h : FMTransmitterHandle) : FMTransmitterHandle :=
  { h with enable := true, running := true, lastError := "" }

/-- A thread that has not run yet. -/
def Worker.spawn (source : WorkerSource) (config : FMTransmitterConfig) : Worker :=
  { source := source
    frequency := config.frequency
    bandwidth := config.bandwidth
    dmaChannel := config.dmaChannel
    finished := false
    readers := 0
    transmits := 0 }

/-- The function `fm_transmitter_start_file` (lines 82-122). -/
def fm_transmitter_start_file (handle : Option FMTransmitterHandle) (filepath : Option String)
    (config : Option FMTransmitterConfig) : StartOutcome :=
  match handle, filepath, config with
  | some h, some path, some cfg =>
    if h.running then .returns .FM_ERROR_ALREADY_RUNNING (some h)
    else
      match assignWorker (armHandle h) (Worker.spawn (.file path cfg.loop) cfg) with
      | none => .terminates
      | some h1 => .returns .FM_SUCCESS (some h1)
  | _, _, _ => .returns .FM_ERROR_INIT_FAILED handle

/-- The function `fm_transmitter_start_stdin` (lines 124-159). -/
def fm_transmitter_start_stdin (handle : Option FMTransmitterHandle)
    (config : Option FMTransmitterConfig) : StartOutcome :=
  match handle, config with
  | some h, some cfg =>
    if h.running then .returns .FM_ERROR_ALREADY_RUNNING (some h)
    else
      match assignWorker (armHandle h) (Worker.spawn .stdin cfg) with
      | none => .terminates
      | some h1 => .returns .FM_SUCCESS (some h1)
  | _, _ => .returns .FM_ERROR_INIT_FAILED handle

/-- The function `fm_transmitter_stop` (lines 161-165); the result is the state of the handle
after the call, `none` meaning that the call has not returned within `fuel` passes. -/
def fm_transmitter_stop (fuel : Nat) (env : Nat → CycleResult)
    (handle : Option FMTransmitterHandle) : Option (Option FMTransmitterHandle) :=
  match handle with
  | none => some none
  | some h => (h.stop fuel env).map some

/-- The function `fm_transmitter_is_running` (lines 167-169). -/
def fm_transmitter_is_running (handle : Option FMTransmitterHandle) : Bool :=
  match handle with
  | none => false
  | some h => h.running

/-- The function `fm_transmitter_get_error` (lines 171-176); `none` is `nullptr`. -/
def fm_transmitter_get_error (handle : Option FMTransmitterHandle) : Option String :=
  match handle with
  | none => some "Invalid handle"
  | some h => if h.lastError.isEmpty then none else some h.lastError

/-- The number of `Transmit` calls made by the worker in the slot. -/
def transmitCalls (h : FMTransmitterHandle) : Nat :=
  match h.workerThread with
  | none => 0
  | some w => w.transmits

/-- The number of `WaveReader` constructions made by the worker in the slot. -/
def readerConstructions (h : FMTransmitterHandle) : Nat :=
  match h.workerThread with
  | none => 0
  | some w => w.readers

/-- The worker in the slot has not reached the end of its lambda. -/
def workerActive (h : FMTransmitterHandle) : Bool :=
  match h.workerThread with
  | none => false
  | some w => !w.finished

/-- What can happen to the handle while a worker is in the slot: the worker makes a pass, or
the control thread writes `enable` under the lock (`stop` writes false at line 43, a start
call writes true at lines 97 and 138). -/
inductive WorkerEvent where
  | pass (r : CycleResult)
  | setEnable (value : Bool)
  deriving DecidableEq, Repr

/-- The effect of one event on the handle. -/
def WorkerEvent.apply : WorkerEvent → FMTransmitterHandle → FMTransmitterHandle
  | .pass r, h => workerCycle r h
  | .setEnable value, h => { h with enable := value }

/-- The handle after the given events, in order. -/
def runEvents : List WorkerEvent → FMTransmitterHandle → FMTransmitterHandle
  | [], h => h
  | e :: es, h => runEvents es (e.apply h)

/-- The number of passes among the events. -/
def passCount : List WorkerEvent → Nat
  | [] => 0
  | .pass _ :: es => passCount es + 1
  | .setEnable _ :: es => passCount es

end Linux

namespace Stub

/-- The struct `FMTransmitterHandle` of the non-Linux branch (lines 185-190). -/
structure FMTransmitterHandle where
  running : Bool
  lastError : String
  deriving DecidableEq, Repr

/-- The fixed text of lines 189, 223 and 235. -/
def unsupportedText : String := "FM transmitter only works on Raspberry Pi (Linux)"

/-- The function `fm_transmitter_create` (lines 203-205). -/
def fm_transmitter_create : Option FMTransmitterHandle :=
  some { running := false, lastError := unsupportedText }

/-- The function `fm_transmitter_start_file` (lines 213-225): code and handle state after. -/
def fm_transmitter_start_file (handle : Option FMTransmitterHandle) (_filepath : Option String)
    (_config : Option FMTransmitterConfig) : FMTransmitterError × Option FMTransmitterHandle :=
  match handle with
  | none => (.FM_ERROR_INIT_FAILED, none)
  | some h => (.FM_ERROR_PERMISSION_DENIED, some { h with lastError := unsupportedText })

/-- The function `fm_transmitter_start_stdin` (lines 227-237). -/
def fm_transmitter_start_stdin (handle : Option FMTransmitterHandle)
    (_config : Option FMTransmitterConfig) : FMTransmitterError × Option FMTransmitterHandle :=
  match handle with
  | none => (.FM_ERROR_INIT_FAILED, none)
  | some h => (.FM_ERROR_PERMISSION_DENIED, some { h with lastError := unsupportedText })

/-- The function `fm_transmitter_stop` (lines 239-243). -/
def fm_transmitter_stop (handle : Option FMTransmitterHandle) : Option FMTransmitterHandle :=
  match handle with
  | none => none
  | some h => some { h with running := false }

/-- The function `fm_transmitter_is_running` (lines 245-247). -/
def fm_transmitter_is_running (handle : Option FMTransmitterHandle) : Bool :=
  match handle with
  | none => false
  | some h => h.running

/-- The function `fm_transmitter_get_error` (lines 249-254). -/
def fm_transmitter_get_error (handle : Option FMTransmitterHandle) : String :=
  match handle with
  | none => "Invalid handle"
  | some h => h.lastError

/-- A call of the control thread on the handle. -/
inductive Call where
  | startFile (filepath : Option String) (config : Option FMTransmitterConfig)
  | startStdin (config : Option FMTransmitterConfig)
  | stop
  deriving DecidableEq, Repr

/-- One call: the handle after it and the code it returned (`none` for `stop`, which is
`void`). -/
def Call.apply (c : Call) (handle : Option FMTransmitterHandle) :
    Option FMTransmitterHandle × Option FMTransmitterError :=
  match c with
  | .startFile filepath config =>
    ((fm_transmitter_start_file handle filepath config).2,
      some (fm_transmitter_start_file handle filepath config).1)
  | .startStdin config =>
    ((fm_transmitter_start_stdin handle config).2,
      some (fm_transmitter_start_stdin handle config).1)
  | .stop => (fm_transmitter_stop handle, none)

/-- A sequence of calls, in order: the handle at the end and the codes the start calls
returned. -/
def runCalls : List Call → Option FMTransmitterHandle →
    Option FMTransmitterHandle × List FMTransmitterError
  | [], handle => (handle, [])
  | c :: cs, handle =>
    ((runCalls cs (c.apply handle).1).1,
      (c.apply handle).2.toList ++ (runCalls cs (c.apply handle).1).2)

end Stub

end PirateRadio

/-! ## Properties of the Linux implementation -/

namespace PirateRadio

section LinuxProperties

open Linux

/-- Lemma: a pass of the worker never writes `enable`. -/
theorem workerCycle_enable (r : CycleResult) (h : FMTransmitterHandle) :
    (workerCycle r h).enable = h.enable := by
  unfold workerCycle
  split
  · rfl
  · split
    · rfl
    · split
      · rfl
      · rfl
      · split <;> rfl

/-- Lemma: once `enable` is false, the pass in flight is the last one of the worker. -/
theorem workerCycle_finishes_when_disabled (r : CycleResult) (h : FMTransmitterHandle)
    (he : h.enable = false) : workerActive (workerCycle r h) = false := by
  cases h with
  | mk enable running workerThread lastError =>
    simp only at he
    subst he
    cases workerThread with
    | none => rfl
    | some w =>
      cases hf : w.finished with
      | true => simp [workerCycle, workerActive, hf]
      | false =>
        cases r with
        | readerThrows what => simp [workerCycle, workerActive, hf]
        | transmitThrows what => simp [workerCycle, workerActive, hf]
        | returned =>
          have hl : loopCondition w.source false = false := by
            cases w.source <;> simp [loopCondition]
          simp [workerCycle, workerActive, hf, hl]

/-- Lemma: `join` returns at once when no worker is active, whatever the fuel. -/
theorem join_inactive (fuel : Nat) (env : Nat → CycleResult) (h : FMTransmitterHandle)
    (hi : workerActive h = false) :
    join fuel env h = some { h with workerThread := none } := by
  cases h with
  | mk enable running workerThread lastError =>
    cases workerThread with
    | none => cases fuel <;> simp [join]
    | some w =>
      have hf : w.finished = true := by simpa [workerActive] using hi
      cases fuel <;> simp [join, hf]

/-- Lemma: with `enable` false and one pass of fuel, `join` returns, with an empty slot and
`enable` still false. -/
theorem join_returns_when_disabled (fuel : Nat) (env : Nat → CycleResult)
    (h : FMTransmitterHandle) (he : h.enable = false) :
    ∃ h2, join (fuel + 1) env h = some h2 ∧ h2.workerThread = none ∧ h2.enable = false := by
  cases ha : workerActive h with
  | false => exact ⟨_, join_inactive _ env h ha, rfl, he⟩
  | true =>
    refine ⟨{ workerCycle (env 0) h with workerThread := none }, ?_, rfl, ?_⟩
    · have hstep : join (fuel + 1) env h
          = join fuel (fun n => env (n + 1)) (workerCycle (env 0) h) := by
        cases hw : h.workerThread with
        | none => simp [workerActive, hw] at ha
        | some w =>
          have hf : w.finished = false := by simpa [workerActive, hw] using ha
          rw [join]
          simp [hw, hf]
      rw [hstep]
      exact join_inactive fuel _ _ (workerCycle_finishes_when_disabled (env 0) h he)
    · simp [workerCycle_enable, he]

/-- Lemma: `stop` with one pass of fuel returns, and the handle it leaves has the two flags
false and an empty slot. -/
theorem stop_returns (fuel : Nat) (env : Nat → CycleResult) (h : FMTransmitterHandle) :
    ∃ h1, h.stop (fuel + 1) env = some h1 ∧ h1.running = false ∧ h1.enable = false ∧
      h1.workerThread = none := by
  obtain ⟨h2, hj, hs, he⟩ :=
    join_returns_when_disabled fuel env { h with enable := false } rfl
  cases hw : h.workerThread with
  | none =>
    exact ⟨{ h with enable := false, running := false },
      by simp [FMTransmitterHandle.stop, hw], rfl, rfl, hw⟩
  | some w =>
    refine ⟨{ h2 with running := false }, ?_, rfl, he, hs⟩
    simp only [hw] at hj
    simp [FMTransmitterHandle.stop, hw, hj]

/-- Lemma: on a handle with both flags false and an empty slot `stop` changes nothing. -/
theorem stop_fixed (fuel : Nat) (env : Nat → CycleResult) (h : FMTransmitterHandle)
    (hr : h.running = false) (he : h.enable = false) (hw : h.workerThread = none) :
    h.stop fuel env = some h := by
  cases h with
  | mk enable running workerThread lastError =>
    simp only at hr he hw
    subst hr he hw
    simp [FMTransmitterHandle.stop]

/-- Lemma: a worker that is not active takes no pass. -/
theorem workerCycle_inactive (r : CycleResult) (h : FMTransmitterHandle)
    (hi : workerActive h = false) : workerCycle r h = h := by
  cases hw : h.workerThread with
  | none => simp [workerCycle, hw]
  | some w =>
    have hf : w.finished = true := by simpa [workerActive, hw] using hi
    simp [workerCycle, hw, hf]

/-- Lemma: nothing happens in later passes once the worker is not active. -/
theorem runCycles_inactive (rs : List CycleResult) (h : FMTransmitterHandle)
    (hi : workerActive h = false) : runCycles rs h = h := by
  induction rs with
  | nil => rfl
  | cons r rs ih => rw [runCycles, workerCycle_inactive r h hi, ih]

/-- Lemma: running the passes `rs` and then `r` is the pass `r` after the passes `rs`. -/
theorem runCycles_snoc (rs : List CycleResult) (r : CycleResult) (h : FMTransmitterHandle) :
    runCycles (rs ++ [r]) h = workerCycle r (runCycles rs h) := by
  induction rs generalizing h with
  | nil => rfl
  | cons q qs ih => exact ih (workerCycle q h)

/-- Lemma: one pass keeps the slot occupied, counts the passes of a worker that goes on,
and a worker that has finished has cleared `running`. -/
theorem workerCycle_invariant (r : CycleResult) (h : FMTransmitterHandle) (n : Nat)
    (w : Worker) (hw : h.workerThread = some w)
    (hcount : w.finished = false → w.readers = n ∧ w.transmits = n)
    (hdone : w.finished = true → h.running = false) :
    ∃ w2, (workerCycle r h).workerThread = some w2
      ∧ (w2.finished = false → w2.readers = n + 1 ∧ w2.transmits = n + 1)
      ∧ (w2.finished = true → (workerCycle r h).running = false) := by
  cases hf : w.finished with
  | true =>
    have hi : workerActive h = false := by simp [workerActive, hw, hf]
    rw [workerCycle_inactive r h hi]
    exact ⟨w, hw, fun h0 => by simp [hf] at h0, fun _ => hdone hf⟩
  | false =>
    obtain ⟨hre, htr⟩ := hcount hf
    cases r with
    | readerThrows what =>
      exact ⟨{ w with finished := true, readers := w.readers + 1 },
        by simp [workerCycle, hw, hf], fun h0 => by simp at h0,
        fun _ => by simp [workerCycle, hw, hf]⟩
    | transmitThrows what =>
      exact ⟨{ w with finished := true, readers := w.readers + 1,
                      transmits := w.transmits + 1 },
        by simp [workerCycle, hw, hf], fun h0 => by simp at h0,
        fun _ => by simp [workerCycle, hw, hf]⟩
    | returned =>
      cases hl : loopCondition w.source h.enable with
      | true =>
        exact ⟨{ w with readers := w.readers + 1, transmits := w.transmits + 1 },
          by simp [workerCycle, hw, hf, hl], fun _ => by simp [hre, htr],
          fun h0 => by simp [hf] at h0⟩
      | false =>
        exact ⟨{ w with finished := true, readers := w.readers + 1,
                        transmits := w.transmits + 1 },
          by simp [workerCycle, hw, hf, hl], fun h0 => by simp at h0,
          fun _ => by simp [workerCycle, hw, hf, hl]⟩

/-- Lemma: the invariant of `workerCycle_invariant` along a run of passes. -/
theorem runCycles_invariant (rs : List CycleResult) (h : FMTransmitterHandle) (n : Nat)
    (w : Worker) (hw : h.workerThread = some w)
    (hcount : w.finished = false → w.readers = n ∧ w.transmits = n)
    (hdone : w.finished = true → h.running = false) :
    ∃ w2, (runCycles rs h).workerThread = some w2
      ∧ (w2.finished = false → w2.readers = n + rs.length ∧ w2.transmits = n + rs.length)
      ∧ (w2.finished = true → (runCycles rs h).running = false) := by
  induction rs generalizing h n w with
  | nil => exact ⟨w, hw, by simpa using hcount, hdone⟩
  | cons r rs ih =>
    obtain ⟨w1, hw1, hc1, hd1⟩ := workerCycle_invariant r h n w hw hcount hdone
    obtain ⟨w2, hw2, hc2, hd2⟩ := ih (workerCycle r h) (n + 1) w1 hw1 hc1 hd1
    refine ⟨w2, hw2, ?_, hd2⟩
    intro h0
    have := hc2 h0
    simp only [List.length_cons]
    omega

/-- Lemma: a pass that raises a failure ends an active worker, with the message stored, and
counts one reader construction, and one `Transmit` call when `Transmit` raised it. -/
theorem workerCycle_failure (r : CycleResult) (m : String) (h : FMTransmitterHandle)
    (w : Worker) (hw : h.workerThread = some w) (hf : w.finished = false)
    (hr : r.failure = some m) :
    (workerCycle r h).lastError = m ∧ (workerCycle r h).running = false
      ∧ workerActive (workerCycle r h) = false
      ∧ readerConstructions (workerCycle r h) = w.readers + 1
      ∧ transmitCalls (workerCycle r h)
          = w.transmits + (match r with | .transmitThrows _ => 1 | _ => 0) := by
  cases r with
  | readerThrows what =>
    have : what = m := by simpa [CycleResult.failure] using hr
    subst this
    simp [workerCycle, hw, hf, workerActive, readerConstructions, transmitCalls]
  | transmitThrows what =>
    have : what = m := by simpa [CycleResult.failure] using hr
    subst this
    simp [workerCycle, hw, hf, workerActive, readerConstructions, transmitCalls]
  | returned => simp [CycleResult.failure] at hr

/-- Lemma: the events `es` followed by `more` are `more` after `es`. -/
theorem runEvents_append (es more : List WorkerEvent) (h : FMTransmitterHandle) :
    runEvents (es ++ more) h = runEvents more (runEvents es h) := by
  induction es generalizing h with
  | nil => rfl
  | cons e es ih => exact ih (e.apply h)

/-- Lemma: once the worker is not active, events change no field but `enable`. -/
theorem runEvents_inactive (es : List WorkerEvent) (h : FMTransmitterHandle)
    (hi : workerActive h = false) :
    runEvents es h = { h with enable := (runEvents es h).enable } := by
  induction es generalizing h with
  | nil => rfl
  | cons e es ih =>
    cases e with
    | pass r =>
      simp only [runEvents, WorkerEvent.apply]
      rw [workerCycle_inactive r h hi]
      exact ih h hi
    | setEnable value =>
      simp only [runEvents, WorkerEvent.apply]
      have hi2 : workerActive { h with enable := value } = false := by
        simpa [workerActive] using hi
      have := ih { h with enable := value } hi2
      rw [this]

/-- Lemma: the invariant of `workerCycle_invariant` along a run of events, the passes being
counted by `passCount`. -/
theorem runEvents_invariant (es : List WorkerEvent) (h : FMTransmitterHandle) (n : Nat)
    (w : Worker) (hw : h.workerThread = some w)
    (hcount : w.finished = false → w.readers = n ∧ w.transmits = n)
    (hdone : w.finished = true → h.running = false) :
    ∃ w2, (runEvents es h).workerThread = some w2
      ∧ (w2.finished = false →
          w2.readers = n + passCount es ∧ w2.transmits = n + passCount es)
      ∧ (w2.finished = true → (runEvents es h).running = false) := by
  induction es generalizing h n w with
  | nil => exact ⟨w, hw, by simpa [passCount] using hcount, hdone⟩
  | cons e es ih =>
    cases e with
    | pass r =>
      obtain ⟨w1, hw1, hc1, hd1⟩ := workerCycle_invariant r h n w hw hcount hdone
      obtain ⟨w2, hw2, hc2, hd2⟩ := ih (workerCycle r h) (n + 1) w1 hw1 hc1 hd1
      refine ⟨w2, hw2, ?_, hd2⟩
      intro h0
      have := hc2 h0
      simp only [passCount]
      omega
    | setEnable value =>
      obtain ⟨w2, hw2, hc2, hd2⟩ := ih { h with enable := value } n w hw hcount hdone
      exact ⟨w2, hw2, by simpa [passCount] using hc2, hd2⟩

/-- Claim C1: on a handle with `running = true`, `fm_transmitter_start_file` and
`fm_transmitter_start_stdin` with non-null arguments return `FM_ERROR_ALREADY_RUNNING`, whose
value is -6, and the handle after the call is the handle before it, field for field. -/
theorem start_while_running_is_rejected (h : FMTransmitterHandle) (path : String)
    (cfg : FMTransmitterConfig) (hr : h.running = true) :
    fm_transmitter_start_file (some h) (some path) (some cfg)
        = .returns .FM_ERROR_ALREADY_RUNNING (some h)
    ∧ fm_transmitter_start_stdin (some h) (some cfg)
        = .returns .FM_ERROR_ALREADY_RUNNING (some h)
    ∧ FMTransmitterError.FM_ERROR_ALREADY_RUNNING.code = -6 := by
  refine ⟨?_, ?_, rfl⟩
  · simp [fm_transmitter_start_file, hr]
  · simp [fm_transmitter_start_stdin, hr]

/-- Witness of C1: a handle that is running with a worker in flight and an old error. -/
theorem start_while_running_is_rejected_witness :
    fm_transmitter_start_file
        (some { enable := true, running := true,
                workerThread := some (Worker.spawn .stdin fm_transmitter_default_config),
                lastError := "old" })
        (some "a.wav") (some fm_transmitter_default_config)
        = .returns .FM_ERROR_ALREADY_RUNNING
          (some { enable := true, running := true,
                  workerThread := some (Worker.spawn .stdin fm_transmitter_default_config),
                  lastError := "old" })
    ∧ fm_transmitter_start_stdin
        (some { enable := true, running := true,
                workerThread := some (Worker.spawn .stdin fm_transmitter_default_config),
                lastError := "old" })
        (some fm_transmitter_default_config)
        = .returns .FM_ERROR_ALREADY_RUNNING
          (some { enable := true, running := true,
                  workerThread := some (Worker.spawn .stdin fm_transmitter_default_config),
                  lastError := "old" })
    ∧ FMTransmitterError.FM_ERROR_ALREADY_RUNNING.code = -6 :=
  start_while_running_is_rejected _ "a.wav" fm_transmitter_default_config rfl

/-- Claim C2: on a handle with `running = false` and an empty worker slot, whatever `enable`
and `lastError` hold, a start call of either variant with non-null arguments returns
`FM_SUCCESS`, whose value is 0, and leaves `running = true`, `enable = true`, an empty
`lastError` (so `fm_transmitter_get_error` returns null) and a worker in the slot that has
not taken a step. -/
theorem start_on_idle_handle_is_accepted (h : FMTransmitterHandle) (path : String)
    (cfg : FMTransmitterConfig) (hr : h.running = false) (hw : h.workerThread = none) :
    fm_transmitter_start_file (some h) (some path) (some cfg)
        = .returns .FM_SUCCESS
            (some { enable := true, running := true, lastError := "",
                    workerThread := some (Worker.spawn (.file path cfg.loop) cfg) })
    ∧ fm_transmitter_start_stdin (some h) (some cfg)
        = .returns .FM_SUCCESS
            (some { enable := true, running := true, lastError := "",
                    workerThread := some (Worker.spawn .stdin cfg) })
    ∧ (∀ w, fm_transmitter_get_error
          (some { enable := true, running := true, lastError := "", workerThread := w }) = none)
    ∧ (∀ source, (Worker.spawn source cfg).finished = false
          ∧ (Worker.spawn source cfg).readers = 0 ∧ (Worker.spawn source cfg).transmits = 0)
    ∧ FMTransmitterError.FM_SUCCESS.code = 0 := by
  refine ⟨?_, ?_, ?_, ?_, rfl⟩
  · simp [fm_transmitter_start_file, hr, assignWorker, armHandle, hw]
  · simp [fm_transmitter_start_stdin, hr, assignWorker, armHandle, hw]
  · intro w
    simp [fm_transmitter_get_error, String.isEmpty_iff]
  · intro source
    exact ⟨rfl, rfl, rfl⟩

/-- Witness of C2: a stopped handle that still holds the error of an earlier attempt. -/
theorem start_on_idle_handle_is_accepted_witness :
    fm_transmitter_start_file
        (some { enable := false, running := false, workerThread := none,
                lastError := "Cannot open missing.wav" })
        (some "song.wav") (some fm_transmitter_default_config)
      = .returns .FM_SUCCESS
          (some { enable := true, running := true, lastError := "",
                  workerThread :=
                    some (Worker.spawn (.file "song.wav" false)
                      fm_transmitter_default_config) }) :=
  (start_on_idle_handle_is_accepted
    { enable := false, running := false, workerThread := none,
      lastError := "Cannot open missing.wav" }
    "song.wav" fm_transmitter_default_config rfl rfl).1

/-- Claim C3: from every handle state, `fm_transmitter_stop` returns (one pass of the worker
is enough fuel for the join) and leaves `running = false`, so that
`fm_transmitter_is_running` is false, `enable = false` and an empty worker slot. -/
theorem stop_leaves_handle_stopped (fuel : Nat) (env : Nat → CycleResult)
    (h : FMTransmitterHandle) :
    ∃ h1, fm_transmitter_stop (fuel + 1) env (some h) = some (some h1)
      ∧ h1.running = false ∧ fm_transmitter_is_running (some h1) = false
      ∧ h1.enable = false ∧ h1.workerThread = none := by
  obtain ⟨h1, hs, hr, he, hw⟩ := stop_returns fuel env h
  exact ⟨h1, by simp [fm_transmitter_stop, hs], hr, by simp [fm_transmitter_is_running, hr],
    he, hw⟩

/-- Claim C7: a start call with a null handle, a null path or a null config returns
`FM_ERROR_INIT_FAILED`, whose value is -1, and the handle after the call is the handle before
it, whatever its state, `running = true` included. -/
theorem start_with_null_argument_is_rejected (handle : Option FMTransmitterHandle)
    (filepath : Option String) (config : Option FMTransmitterConfig) :
    fm_transmitter_start_file none filepath config = .returns .FM_ERROR_INIT_FAILED none
    ∧ fm_transmitter_start_file handle none config = .returns .FM_ERROR_INIT_FAILED handle
    ∧ fm_transmitter_start_file handle filepath none = .returns .FM_ERROR_INIT_FAILED handle
    ∧ fm_transmitter_start_stdin none config = .returns .FM_ERROR_INIT_FAILED none
    ∧ fm_transmitter_start_stdin handle none = .returns .FM_ERROR_INIT_FAILED handle
    ∧ FMTransmitterError.FM_ERROR_INIT_FAILED.code = -1 := by
  refine ⟨?_, ?_, ?_, ?_, ?_, rfl⟩
  · cases filepath <;> cases config <;> rfl
  · cases handle <;> cases config <;> rfl
  · cases handle <;> cases filepath <;> rfl
  · cases config <;> rfl
  · cases handle <;> rfl

/-- Claim C8: for every handle state a second `fm_transmitter_stop` leaves exactly the state
the first one left, and on a handle with `running = false` and an empty worker slot a stop
only writes the flags: `enable` becomes false, `running` stays false, `lastError` and the
empty slot are as before. -/
theorem stop_is_idempotent (fuel fuel2 : Nat) (env env2 : Nat → CycleResult)
    (h : FMTransmitterHandle) :
    (∃ h1, fm_transmitter_stop (fuel + 1) env (some h) = some (some h1)
        ∧ fm_transmitter_stop fuel2 env2 (some h1) = some (some h1))
    ∧ (∀ (enable : Bool) (lastError : String),
        fm_transmitter_stop fuel2 env2
            (some { enable := enable, running := false, workerThread := none,
                    lastError := lastError })
          = some (some { enable := false, running := false, workerThread := none,
                         lastError := lastError })) := by
  constructor
  · obtain ⟨h1, hs, hr, he, hw⟩ := stop_returns fuel env h
    exact ⟨h1, by simp [fm_transmitter_stop, hs],
      by simp [fm_transmitter_stop, stop_fixed fuel2 env2 h1 hr he hw]⟩
  · intro enable lastError
    simp [fm_transmitter_stop, FMTransmitterHandle.stop]

/-- Lemma: on every handle with `running = false` and a joinable worker slot, a start call
of either variant with non-null arguments ends the process. -/
theorem start_on_joinable_slot_terminates (h : FMTransmitterHandle) (w : Worker)
    (path : String) (cfg : FMTransmitterConfig) (hr : h.running = false)
    (hw : h.workerThread = some w) :
    fm_transmitter_start_file (some h) (some path) (some cfg) = .terminates
    ∧ fm_transmitter_start_stdin (some h) (some cfg) = .terminates := by
  constructor
  · simp [fm_transmitter_start_file, hr, assignWorker, armHandle, hw]
  · simp [fm_transmitter_start_stdin, hr, assignWorker, armHandle, hw]

/-- Claim C4, the code at the failing input: a start is accepted on a fresh handle, the
worker fails to open the file and exits on its own, which leaves `running = false`, the
message in `lastError` and the worker slot still joinable; the next start call of either
variant passes both guards and reaches the assignment to the joinable slot, which ends the
process. -/
theorem restart_after_worker_failure_terminates :
    fm_transmitter_start_file (fm_transmitter_create false) (some "missing.wav")
        (some fm_transmitter_default_config)
      = .returns .FM_SUCCESS
          (some { enable := true, running := true, lastError := "",
                  workerThread :=
                    some (Worker.spawn (.file "missing.wav" false)
                      fm_transmitter_default_config) })
    ∧ workerCycle (.readerThrows "Cannot open missing.wav")
          { enable := true, running := true, lastError := "",
            workerThread :=
              some (Worker.spawn (.file "missing.wav" false) fm_transmitter_default_config) }
      = { enable := true, running := false, lastError := "Cannot open missing.wav",
          workerThread :=
            some { Worker.spawn (.file "missing.wav" false) fm_transmitter_default_config with
                   finished := true, readers := 1 } }
    ∧ fm_transmitter_start_file
        (some { enable := true, running := false, lastError := "Cannot open missing.wav",
                workerThread :=
                  some { Worker.spawn (.file "missing.wav" false)
                           fm_transmitter_default_config with
                         finished := true, readers := 1 } })
        (some "song.wav") (some fm_transmitter_default_config)
      = .terminates
    ∧ fm_transmitter_start_stdin
        (some { enable := true, running := false, lastError := "Cannot open missing.wav",
                workerThread :=
                  some { Worker.spawn (.file "missing.wav" false)
                           fm_transmitter_default_config with
                         finished := true, readers := 1 } })
        (some fm_transmitter_default_config)
      = .terminates := by
  refine ⟨rfl, rfl, rfl, rfl⟩

/-- Claim C5 as stated fails: a start is accepted, the reader raises a failure whose
message is the empty text, the worker ends with `running = false`, and
`fm_transmitter_get_error` returns null. -/
theorem empty_failure_message_reads_as_no_error :
    fm_transmitter_start_file (fm_transmitter_create false) (some "song.wav")
        (some fm_transmitter_default_config)
      = .returns .FM_SUCCESS
          (some { enable := true, running := true, lastError := "",
                  workerThread :=
                    some (Worker.spawn (.file "song.wav" false) fm_transmitter_default_config) })
    ∧ fm_transmitter_is_running
        (some (workerCycle (.readerThrows "")
          { enable := true, running := true, lastError := "",
            workerThread :=
              some (Worker.spawn (.file "song.wav" false) fm_transmitter_default_config) }))
      = false
    ∧ fm_transmitter_get_error
        (some (workerCycle (.readerThrows "")
          { enable := true, running := true, lastError := "",
            workerThread :=
              some (Worker.spawn (.file "song.wav" false) fm_transmitter_default_config) }))
      = none := by
  refine ⟨rfl, rfl, rfl⟩

/-- Claim C5, amended: when a pass of an active worker (of either variant) raises a failure
with message `m`, the worker ends with `running = false` and `lastError = m`, and from then
on, whatever passes the environment would still offer, `fm_transmitter_get_error` returns
`m`, not null, when `m` is not the empty text, and null when `m` is the empty text. -/
theorem worker_failure_is_reported (h : FMTransmitterHandle) (r : CycleResult) (m : String)
    (rs : List CycleResult) (hact : workerActive h = true) (hr : r.failure = some m) :
    fm_transmitter_is_running (some (workerCycle r h)) = false
    ∧ (workerCycle r h).lastError = m
    ∧ (m ≠ "" →
        fm_transmitter_get_error (some (workerCycle r h)) = some m
        ∧ fm_transmitter_get_error (some (runCycles rs (workerCycle r h))) = some m)
    ∧ (m = "" →
        (workerCycle r h).lastError = ""
        ∧ fm_transmitter_get_error (some (workerCycle r h)) = none
        ∧ fm_transmitter_get_error (some (runCycles rs (workerCycle r h))) = none) := by
  cases hw : h.workerThread with
  | none => simp [workerActive, hw] at hact
  | some w =>
    have hf : w.finished = false := by simpa [workerActive, hw] using hact
    obtain ⟨hle, hrun, hina, -, -⟩ := workerCycle_failure r m h w hw hf hr
    rw [runCycles_inactive rs _ hina]
    refine ⟨by simp [fm_transmitter_is_running, hrun], hle, ?_, ?_⟩
    · intro hm
      have hget : fm_transmitter_get_error (some (workerCycle r h)) = some m := by
        simp [fm_transmitter_get_error, hle, String.isEmpty_iff, hm]
      exact ⟨hget, hget⟩
    · intro hm
      have hget : fm_transmitter_get_error (some (workerCycle r h)) = none := by
        simp [fm_transmitter_get_error, hle, String.isEmpty_iff, hm]
      exact ⟨by rw [hle, hm], hget, hget⟩

/-- Witness of C5, amended: the file worker of a fresh start fails to open its file. -/
theorem worker_failure_is_reported_witness :
    fm_transmitter_get_error
        (some (workerCycle (.readerThrows "Cannot open missing.wav")
          { enable := true, running := true, lastError := "",
            workerThread :=
              some (Worker.spawn (.file "missing.wav" false)
                fm_transmitter_default_config) }))
      = some "Cannot open missing.wav" :=
  ((worker_failure_is_reported
    { enable := true, running := true, lastError := "",
      workerThread :=
        some (Worker.spawn (.file "missing.wav" false) fm_transmitter_default_config) }
    (.readerThrows "Cannot open missing.wav") "Cannot open missing.wav" [] rfl rfl).2.2.1
    (by decide)).1

/-- Claim C9 as stated fails: `fm_transmitter_start_stdin` is accepted with `loop = true`,
the first `Transmit` call returns normally with `enable` still true, and the worker has
exited; offered a second pass it constructs no second reader and makes no second `Transmit`
call. -/
theorem stdin_worker_does_not_repeat :
    fm_transmitter_start_stdin (fm_transmitter_create false)
        (some { fm_transmitter_default_config with loop := true })
      = .returns .FM_SUCCESS
          (some { enable := true, running := true, lastError := "",
                  workerThread :=
                    some (Worker.spawn .stdin
                      { fm_transmitter_default_config with loop := true }) })
    ∧ (workerCycle .returned
          { enable := true, running := true, lastError := "",
            workerThread :=
              some (Worker.spawn .stdin
                { fm_transmitter_default_config with loop := true }) }).enable = true
    ∧ workerActive (workerCycle .returned
          { enable := true, running := true, lastError := "",
            workerThread :=
              some (Worker.spawn .stdin
                { fm_transmitter_default_config with loop := true }) }) = false
    ∧ readerConstructions (runCycles [.returned, .returned]
          { enable := true, running := true, lastError := "",
            workerThread :=
              some (Worker.spawn .stdin
                { fm_transmitter_default_config with loop := true }) }) = 1
    ∧ transmitCalls (runCycles [.returned, .returned]
          { enable := true, running := true, lastError := "",
            workerThread :=
              some (Worker.spawn .stdin
                { fm_transmitter_default_config with loop := true }) }) = 1 := by
  refine ⟨rfl, rfl, rfl, rfl, rfl⟩

/-- Claim C9, amended: the worker of `fm_transmitter_start_stdin` makes one pass whatever
`loop` and `enable` hold.  After an accepted start, the first pass, whether `Transmit`
returned or a failure was raised, ends the worker with `running = false`, one reader
constructed and at most one `Transmit` call, and later passes change nothing.  The file
worker with `loop = true` and `enable` true is still active after a pass that returned, and
makes a second `Transmit` call. -/
theorem stdin_worker_makes_one_pass (h : FMTransmitterHandle) (cfg : FMTransmitterConfig)
    (enable : Bool) (r : CycleResult) (rs : List CycleResult) (path : String)
    (hr : h.running = false) (hw : h.workerThread = none) :
    fm_transmitter_start_stdin (some h) (some cfg)
      = .returns .FM_SUCCESS
          (some { enable := true, running := true, lastError := "",
                  workerThread := some (Worker.spawn .stdin cfg) })
    ∧ workerActive (workerCycle r
          { enable := enable, running := true, lastError := "",
            workerThread := some (Worker.spawn .stdin cfg) }) = false
    ∧ (workerCycle r
          { enable := enable, running := true, lastError := "",
            workerThread := some (Worker.spawn .stdin cfg) }).running = false
    ∧ runCycles (r :: rs)
          { enable := enable, running := true, lastError := "",
            workerThread := some (Worker.spawn .stdin cfg) }
        = workerCycle r
          { enable := enable, running := true, lastError := "",
            workerThread := some (Worker.spawn .stdin cfg) }
    ∧ readerConstructions (workerCycle r
          { enable := enable, running := true, lastError := "",
            workerThread := some (Worker.spawn .stdin cfg) }) = 1
    ∧ transmitCalls (workerCycle r
          { enable := enable, running := true, lastError := "",
            workerThread := some (Worker.spawn .stdin cfg) }) ≤ 1
    ∧ workerActive (workerCycle .returned
          { enable := true, running := true, lastError := "",
            workerThread := some (Worker.spawn (.file path true) cfg) }) = true
    ∧ transmitCalls (runCycles [.returned, .returned]
          { enable := true, running := true, lastError := "",
            workerThread := some (Worker.spawn (.file path true) cfg) }) = 2 := by
  have hina : workerActive (workerCycle r
      { enable := enable, running := true, lastError := "",
        workerThread := some (Worker.spawn .stdin cfg) }) = false := by
    cases r <;> simp [workerCycle, Worker.spawn, workerActive, loopCondition]
  refine ⟨?_, hina, ?_, ?_, ?_, ?_, ?_, ?_⟩
  · simp [fm_transmitter_start_stdin, hr, assignWorker, armHandle, hw]
  · cases r <;> simp [workerCycle, Worker.spawn, loopCondition]
  · rw [runCycles, runCycles_inactive rs _ hina]
  · cases r <;> simp [workerCycle, Worker.spawn, readerConstructions, loopCondition]
  · cases r <;> simp [workerCycle, Worker.spawn, transmitCalls, loopCondition]
  · simp [workerCycle, Worker.spawn, workerActive, loopCondition]
  · simp [runCycles, workerCycle, Worker.spawn, transmitCalls, loopCondition]

/-- Witness of C9, amended: a fresh handle, `loop = true`, a first pass that returned. -/
theorem stdin_worker_makes_one_pass_witness :
    transmitCalls (workerCycle .returned
        { enable := true, running := true, lastError := "",
          workerThread :=
            some (Worker.spawn .stdin
              { fm_transmitter_default_config with loop := true }) }) ≤ 1 :=
  (stdin_worker_makes_one_pass FMTransmitterHandle.new
    { fm_transmitter_default_config with loop := true } true .returned [] "a.wav"
    rfl rfl).2.2.2.2.2.1

/-- Claim C10 as stated fails: with `loop = true` and `enable` true, a failure in the first
pass gives no `Transmit` call when the reader constructor raised it and one `Transmit` call
when `Transmit` raised it, so no numbering of the passes makes the number of `Transmit`
calls equal to the index of the failing pass. -/
theorem transmit_calls_are_not_the_failing_index :
    ¬ ∃ first : Nat, ∀ r : CycleResult, r.failure ≠ none →
        transmitCalls (workerCycle r
          { enable := true, running := true, lastError := "",
            workerThread :=
              some (Worker.spawn (.file "song.wav" true)
                { fm_transmitter_default_config with loop := true }) }) = first := by
  rintro ⟨first, hall⟩
  have h0 := hall (.readerThrows "e") (by simp [CycleResult.failure])
  have h1 := hall (.transmitThrows "e") (by simp [CycleResult.failure])
  simp [workerCycle, Worker.spawn, transmitCalls] at h0 h1
  omega

/-- Claim C10, amended: after an accepted `fm_transmitter_start_file`, let the events `es`
(passes of the worker and writes of `enable` by the control thread, in any order) have left
the worker active, and let the next pass `r` raise a failure with message `m`.  The worker
ends there, even with `loop = true` and `enable` true: `lastError = m`, `running = false`,
the failing pass is pass `passCount es + 1` and the last one (as many reader constructions;
later events change no field but `enable`), and the number of `Transmit` calls is
`passCount es + 1` when `Transmit` raised the failure and `passCount es` when the reader
constructor did.  Every run of events after which the worker is not active has
`running = false`, failing or not; in particular the pass that follows a cancellation
(`enable` written false) ends the worker with `running = false` whatever its outcome. -/
theorem file_worker_ends_at_failure (path : String) (cfg : FMTransmitterConfig)
    (es : List WorkerEvent) (r : CycleResult) (m : String)
    (hact : workerActive (runEvents es
        { enable := true, running := true, lastError := "",
                workerThread := some (Worker.spawn (.file path cfg.loop) cfg) }) = true)
    (hr : r.failure = some m) :
    (runEvents (es ++ [.pass r])
        { enable := true, running := true, lastError := "",
                workerThread := some (Worker.spawn (.file path cfg.loop) cfg) }).lastError = m
    ∧ (runEvents (es ++ [.pass r])
        { enable := true, running := true, lastError := "",
                workerThread := some (Worker.spawn (.file path cfg.loop) cfg) }).running = false
    ∧ workerActive (runEvents (es ++ [.pass r])
        { enable := true, running := true, lastError := "",
                workerThread := some (Worker.spawn (.file path cfg.loop) cfg) }) = false
    ∧ readerConstructions (runEvents (es ++ [.pass r])
        { enable := true, running := true, lastError := "",
                workerThread := some (Worker.spawn (.file path cfg.loop) cfg) }) = passCount es + 1
    ∧ transmitCalls (runEvents (es ++ [.pass r])
        { enable := true, running := true, lastError := "",
                workerThread := some (Worker.spawn (.file path cfg.loop) cfg) })
        = passCount es + (match r with | .transmitThrows _ => 1 | _ => 0)
    ∧ (∀ more : List WorkerEvent,
        (runEvents (es ++ [.pass r] ++ more)
          { enable := true, running := true, lastError := "",
                workerThread := some (Worker.spawn (.file path cfg.loop) cfg) }).lastError = m
        ∧ (runEvents (es ++ [.pass r] ++ more)
          { enable := true, running := true, lastError := "",
                workerThread := some (Worker.spawn (.file path cfg.loop) cfg) }).running = false
        ∧ (runEvents (es ++ [.pass r] ++ more)
          { enable := true, running := true, lastError := "",
                workerThread := some (Worker.spawn (.file path cfg.loop) cfg) }).workerThread
          = (runEvents (es ++ [.pass r])
              { enable := true, running := true, lastError := "",
                workerThread := some (Worker.spawn (.file path cfg.loop) cfg) }).workerThread)
    ∧ (∀ qs : List WorkerEvent,
        workerActive (runEvents qs
          { enable := true, running := true, lastError := "",
                workerThread := some (Worker.spawn (.file path cfg.loop) cfg) }) = false →
        (runEvents qs
          { enable := true, running := true, lastError := "",
                workerThread := some (Worker.spawn (.file path cfg.loop) cfg) }).running = false)
    ∧ (∀ (qs : List WorkerEvent) (q : CycleResult),
        workerActive (runEvents (qs ++ [.setEnable false, .pass q])
          { enable := true, running := true, lastError := "",
                workerThread := some (Worker.spawn (.file path cfg.loop) cfg) }) = false
        ∧ (runEvents (qs ++ [.setEnable false, .pass q])
          { enable := true, running := true, lastError := "",
                workerThread := some (Worker.spawn (.file path cfg.loop) cfg) }).running = false) := by
  have hinv : ∀ qs : List WorkerEvent, ∃ w2,
      (runEvents qs
        { enable := true, running := true, lastError := "",
                workerThread := some (Worker.spawn (.file path cfg.loop) cfg) }).workerThread
        = some w2
      ∧ (w2.finished = false →
          w2.readers = 0 + passCount qs ∧ w2.transmits = 0 + passCount qs)
      ∧ (w2.finished = true →
          (runEvents qs
            { enable := true, running := true, lastError := "",
                workerThread := some (Worker.spawn (.file path cfg.loop) cfg) }).running
            = false) :=
    fun qs => runEvents_invariant qs _ 0 (Worker.spawn (.file path cfg.loop) cfg) rfl
      (fun _ => ⟨rfl, rfl⟩) (fun h0 => by simp [Worker.spawn] at h0)
  have hdone : ∀ qs : List WorkerEvent,
      workerActive (runEvents qs
        { enable := true, running := true, lastError := "",
                workerThread := some (Worker.spawn (.file path cfg.loop) cfg) }) = false →
      (runEvents qs
        { enable := true, running := true, lastError := "",
                workerThread := some (Worker.spawn (.file path cfg.loop) cfg) }).running = false := by
    intro qs hq
    obtain ⟨w3, hw3, -, hd3⟩ := hinv qs
    exact hd3 (by simpa [workerActive, hw3] using hq)
  obtain ⟨w2, hw2, hc2, -⟩ := hinv es
  have hf2 : w2.finished = false := by simpa [workerActive, hw2] using hact
  obtain ⟨hre, htr⟩ := hc2 hf2
  obtain ⟨hle, hrun, hina, hrd, htc⟩ := workerCycle_failure r m _ w2 hw2 hf2 hr
  have hsnoc : runEvents (es ++ [.pass r])
      { enable := true, running := true, lastError := "",
                workerThread := some (Worker.spawn (.file path cfg.loop) cfg) }
      = workerCycle r (runEvents es
          { enable := true, running := true, lastError := "",
                workerThread := some (Worker.spawn (.file path cfg.loop) cfg) }) := by
    rw [runEvents_append]; rfl
  refine ⟨?_, ?_, ?_, ?_, ?_, ?_, hdone, ?_⟩
  · rw [hsnoc]; exact hle
  · rw [hsnoc]; exact hrun
  · rw [hsnoc]; exact hina
  · rw [hsnoc, hrd, hre]; omega
  · rw [hsnoc, htc, htr]; omega
  · intro more
    have hfix := runEvents_inactive more (runEvents (es ++ [.pass r])
        { enable := true, running := true, lastError := "",
                workerThread := some (Worker.spawn (.file path cfg.loop) cfg) }) (by rw [hsnoc]; exact hina)
    rw [runEvents_append (es ++ [WorkerEvent.pass r]) more, hfix, hsnoc]
    exact ⟨hle, hrun, rfl⟩
  · intro qs q
    have hina2 : workerActive (runEvents (qs ++ [.setEnable false, .pass q])
        { enable := true, running := true, lastError := "",
                workerThread := some (Worker.spawn (.file path cfg.loop) cfg) }) = false := by
      rw [runEvents_append]
      exact workerCycle_finishes_when_disabled q _ rfl
    exact ⟨hina2, hdone _ hina2⟩

/-- Witness of C10, amended: `loop = true`, one pass that returned, then `Transmit` fails in
the second pass: two `Transmit` calls. -/
theorem file_worker_ends_at_failure_witness :
    transmitCalls (runEvents ([.pass .returned] ++ [.pass (.transmitThrows "DMA fault")])
        { enable := true, running := true, lastError := "",
          workerThread :=
            some (Worker.spawn
              (.file "song.wav" ({ fm_transmitter_default_config with loop := true }).loop)
              { fm_transmitter_default_config with loop := true }) })
      = passCount [.pass .returned] + 1 :=
  (file_worker_ends_at_failure "song.wav" { fm_transmitter_default_config with loop := true }
    [.pass .returned] (.transmitThrows "DMA fault") "DMA fault" rfl rfl).2.2.2.2.1

end LinuxProperties

end PirateRadio

/-! ## Properties of the stub implementation -/

namespace PirateRadio

section StubProperties

open Stub

/-- Lemma: from a handle that is not running and holds the fixed text, every sequence of
calls ends on such a handle, and every start call in it returned
`FM_ERROR_PERMISSION_DENIED`. -/
theorem stub_runCalls_invariant (cs : List Call) (h : Stub.FMTransmitterHandle)
    (hr : h.running = false) (hl : h.lastError = unsupportedText) :
    ∃ h2, (runCalls cs (some h)).1 = some h2 ∧ h2.running = false
      ∧ h2.lastError = unsupportedText
      ∧ ∀ c ∈ (runCalls cs (some h)).2, c = FMTransmitterError.FM_ERROR_PERMISSION_DENIED := by
  induction cs generalizing h with
  | nil => exact ⟨h, rfl, hr, hl, by simp [runCalls]⟩
  | cons c cs ih =>
    cases c with
    | startFile filepath config =>
      obtain ⟨h2, h2eq, h2r, h2l, h2c⟩ := ih { h with lastError := unsupportedText } hr rfl
      refine ⟨h2, by simpa [runCalls, Call.apply, Stub.fm_transmitter_start_file] using h2eq,
        h2r, h2l, ?_⟩
      intro c hc
      simp only [runCalls, Call.apply, Stub.fm_transmitter_start_file, Option.toList,
        List.singleton_append, List.mem_cons] at hc
      rcases hc with hc | hc
      · exact hc
      · exact h2c c hc
    | startStdin config =>
      obtain ⟨h2, h2eq, h2r, h2l, h2c⟩ := ih { h with lastError := unsupportedText } hr rfl
      refine ⟨h2, by simpa [runCalls, Call.apply, Stub.fm_transmitter_start_stdin] using h2eq,
        h2r, h2l, ?_⟩
      intro c hc
      simp only [runCalls, Call.apply, Stub.fm_transmitter_start_stdin, Option.toList,
        List.singleton_append, List.mem_cons] at hc
      rcases hc with hc | hc
      · exact hc
      · exact h2c c hc
    | stop =>
      obtain ⟨h2, h2eq, h2r, h2l, h2c⟩ := ih { h with running := false } rfl hl
      refine ⟨h2, by simpa [runCalls, Call.apply, Stub.fm_transmitter_stop] using h2eq,
        h2r, h2l, ?_⟩
      intro c hc
      simp only [runCalls, Call.apply, Stub.fm_transmitter_stop, Option.toList,
        List.nil_append] at hc
      exact h2c c hc

/-- Claim C6: in the stub, after every sequence of `start_file`, `start_stdin` and `stop`
calls on the handle that `fm_transmitter_create` returned, the handle is not null,
`fm_transmitter_is_running` is false, `lastError` (what `fm_transmitter_get_error` returns)
is the text "FM transmitter only works on Raspberry Pi (Linux)", and every start call of the
sequence returned `FM_ERROR_PERMISSION_DENIED`, whose value is -5, not `FM_SUCCESS`. -/
theorem stub_never_runs (cs : List Stub.Call) :
    (∃ h, (Stub.runCalls cs Stub.fm_transmitter_create).1 = some h ∧ h.running = false
        ∧ h.lastError = "FM transmitter only works on Raspberry Pi (Linux)")
    ∧ Stub.fm_transmitter_is_running (Stub.runCalls cs Stub.fm_transmitter_create).1 = false
    ∧ Stub.fm_transmitter_get_error (Stub.runCalls cs Stub.fm_transmitter_create).1
        = "FM transmitter only works on Raspberry Pi (Linux)"
    ∧ (∀ c ∈ (Stub.runCalls cs Stub.fm_transmitter_create).2,
        c = FMTransmitterError.FM_ERROR_PERMISSION_DENIED
          ∧ c ≠ FMTransmitterError.FM_SUCCESS)
    ∧ FMTransmitterError.FM_ERROR_PERMISSION_DENIED.code = -5 := by
  obtain ⟨h2, h2eq, h2r, h2l, h2c⟩ :=
    stub_runCalls_invariant cs { running := false, lastError := unsupportedText } rfl rfl
  have hcreate : Stub.fm_transmitter_create
      = some { running := false, lastError := unsupportedText } := rfl
  rw [hcreate]
  refine ⟨⟨h2, h2eq, h2r, h2l⟩, ?_, ?_, ?_, rfl⟩
  · rw [h2eq]; exact h2r
  · rw [h2eq]; exact h2l
  · intro c hc
    have := h2c c hc
    subst this
    exact ⟨rfl, by decide⟩

end StubProperties

end PirateRadio
